import Mathlib

/-!
Shallow embedding of the window-physics simulation loop in `gravity.py`.

The source is a single loop `update_windows` that, each tick:
1. queries the OS for all windows, keeping those that are visible, not
   minimized and have a non-empty title (`current_windows`);
2. adds new windows with positive dimensions to `managed_windows`, seeded
   with current position, zero velocity and not user-controlled;
3. deletes every tracked id absent from `current_windows`;
4. marks each body user-controlled iff its id is the active window's id and
   the mouse button is down;
5. steps each body: dragged bodies get a velocity estimate from the
   position delta; falling bodies get semi-implicit Euler integration with
   gravity, friction, boundary bounce and clamping, and a move command when
   the truncated position changed.

Positions and velocities are Python floats; they are modelled as rationals
(ℚ). Screen metrics and window rectangle fields are Python ints (ℤ).
-/

/-- Configuration constant `UPDATE_RATE_HZ = 60` from gravity.py line 8. -/
def UPDATE_RATE_HZ : ℚ := 60

/-- Configuration constant `GRAVITY = 2000.0` from gravity.py line 9. -/
def GRAVITY : ℚ := 2000

/-- Configuration constant `FRICTION = 0.98` from gravity.py line 10. -/
def FRICTION : ℚ := 98 / 100

/-- Configuration constant `THROW_MULTIPLIER = 1.0` from gravity.py line 11. -/
def THROW_MULTIPLIER : ℚ := 1

/-- The fixed tick duration `delta_time = 1.0 / UPDATE_RATE_HZ` (line 41). -/
def delta_time : ℚ := 1 / UPDATE_RATE_HZ

/-- Python `int()` applied to a float: truncation toward zero. -/
def pytrunc (q : ℚ) : ℤ := if 0 ≤ q then ⌊q⌋ else -⌊-q⌋

/-- One OS window as reported by `pygetwindow`: identifier `_hWnd`, `title`,
`visible`, `isMinimized` flags, and the integer rectangle
`left`/`top`/`width`/`height`. -/
structure WinInfo where
  hwnd : Nat
  title : String
  visible : Bool
  isMinimized : Bool
  left : ℤ
  top : ℤ
  width : ℤ
  height : ℤ
  deriving DecidableEq, Repr

/-- The per-window physics state held in `managed_windows`
(class `WindowState`, gravity.py lines 22-30). -/
structure WindowState where
  vx : ℚ
  vy : ℚ
  last_x : ℚ
  last_y : ℚ
  is_user_controlled : Bool
  deriving DecidableEq, Repr

/-- `WindowState.__init__`: zero velocity, last position = the window's
current position, not user-controlled (gravity.py lines 24-30). -/
def WindowState.init (w : WinInfo) : WindowState :=
  { vx := 0, vy := 0, last_x := (w.left : ℚ), last_y := (w.top : ℚ),
    is_user_controlled := false }

/-- The snapshot comprehension of gravity.py line 46: keep windows that are
visible, not minimized, and have a non-empty title. -/
def snapshotFilter (raw : List WinInfo) : List WinInfo :=
  raw.filter (fun w => w.visible && !w.isMinimized && w.title != "")

/-- Dictionary lookup in an association-list model of a Python dict. -/
def lookup (reg : List (Nat × WindowState)) (h : Nat) : Option WindowState :=
  (reg.find? (fun p => p.1 == h)).map (fun p => p.2)

/-- The body of the "Add new windows" loop (gravity.py lines 52-60): if the
snapshot window's id is not yet tracked and its width and height are
positive, insert a freshly initialised `WindowState`. -/
def addNewOne (acc : List (Nat × WindowState)) (w : WinInfo) :
    List (Nat × WindowState) :=
  if ∃ p ∈ acc, p.1 = w.hwnd then acc
  else if 0 < w.width ∧ 0 < w.height then acc ++ [(w.hwnd, WindowState.init w)]
  else acc

/-- The "Add new windows" pass (gravity.py lines 52-60): fold the loop body
over the snapshot. -/
def addNew (snap : List WinInfo) (reg : List (Nat × WindowState)) :
    List (Nat × WindowState) :=
  snap.foldl addNewOne reg

/-- The "Remove closed windows" pass (gravity.py lines 63-67): delete every
tracked id absent from the snapshot. -/
def removeClosed (snap : List WinInfo) (reg : List (Nat × WindowState)) :
    List (Nat × WindowState) :=
  reg.filter (fun p => snap.any (fun w => w.hwnd == p.1))

/-- The "DETERMINE USER CONTROL" pass (gravity.py lines 70-75): a body is
user-controlled iff its id equals the active window id and the mouse button
is down. `active = none` models `getActiveWindow()` returning nothing. -/
def setControl (active : Option Nat) (mouseDown : Bool)
    (reg : List (Nat × WindowState)) : List (Nat × WindowState) :=
  reg.map (fun p =>
    (p.1, { p.2 with is_user_controlled := (active == some p.1) && mouseDown }))

/-- The dragged branch (gravity.py lines 83-91): velocity is estimated from
the position delta over one tick, the last position is refreshed, and no
move command is issued. -/
def draggedStep (dt : ℚ) (win : WinInfo) (s : WindowState) :
    WindowState × Option (ℤ × ℤ) :=
  ({ s with
      vx := ((win.left : ℚ) - s.last_x) / dt * THROW_MULTIPLIER,
      vy := ((win.top : ℚ) - s.last_y) / dt * THROW_MULTIPLIER,
      last_x := (win.left : ℚ),
      last_y := (win.top : ℚ) }, none)

/-- The falling branch (gravity.py lines 93-120): gravity, friction, the
candidate position, boundary bounce against the candidate, clamping, the
conditional move command, and the last-position update. -/
def fallingStep (sw sh : ℤ) (dt : ℚ) (win : WinInfo) (s : WindowState) :
    WindowState × Option (ℤ × ℤ) :=
  let vy1 := s.vy + GRAVITY * dt
  let vx1 := s.vx * FRICTION
  let new_x := s.last_x + vx1 * dt
  let new_y := s.last_y + vy1 * dt
  let vx2 := if new_x ≤ 0 ∨ new_x + (win.width : ℚ) ≥ (sw : ℚ) then vx1 * (-(1/2)) else vx1
  let vy2 := if new_y ≤ 0 ∨ new_y + (win.height : ℚ) ≥ (sh : ℚ) then vy1 * (-(2/5)) else vy1
  let clamped_x := max 0 (min new_x ((sw : ℚ) - (win.width : ℚ)))
  let clamped_y := max 0 (min new_y ((sh : ℚ) - (win.height : ℚ)))
  let move := if win.left ≠ pytrunc clamped_x ∨ win.top ≠ pytrunc clamped_y
    then some (pytrunc clamped_x, pytrunc clamped_y) else none
  ({ s with vx := vx2, vy := vy2, last_x := clamped_x, last_y := clamped_y }, move)

/-- One body's update inside the physics loop (gravity.py lines 78-120):
look the id up in the snapshot; if absent, skip; otherwise take the dragged
or the falling branch according to `is_user_controlled`. -/
def bodyStep (sw sh : ℤ) (dt : ℚ) (snap : List WinInfo) (h : Nat)
    (s : WindowState) : WindowState × Option (ℤ × ℤ) :=
  match snap.find? (fun w => w.hwnd == h) with
  | none => (s, none)
  | some win =>
    if s.is_user_controlled then draggedStep dt win s
    else fallingStep sw sh dt win s

/-- The "UPDATE VELOCITY AND POSITION" pass over the whole registry,
returning the updated registry and the list of issued move commands. -/
def physicsPhase (sw sh : ℤ) (dt : ℚ) (snap : List WinInfo)
    (reg : List (Nat × WindowState)) :
    List (Nat × WindowState) × List (Nat × ℤ × ℤ) :=
  (reg.map (fun p => (p.1, (bodyStep sw sh dt snap p.1 p.2).1)),
   reg.filterMap (fun p =>
     ((bodyStep sw sh dt snap p.1 p.2).2).map (fun m => (p.1, m))))

/-- One iteration of the `while running` loop of `update_windows`
(gravity.py lines 43-123). `snapRes = none` models `gw.getAllWindows()`
raising, in which case the `except Exception: continue` makes the whole
tick a no-op. -/
def update_windows_tick (sw sh : ℤ) (dt : ℚ) (snapRes : Option (List WinInfo))
    (active : Option Nat) (mouseDown : Bool) (reg : List (Nat × WindowState)) :
    List (Nat × WindowState) × List (Nat × ℤ × ℤ) :=
  match snapRes with
  | none => (reg, [])
  | some raw =>
    let snap := snapshotFilter raw
    let reg1 := addNew snap reg
    let reg2 := removeClosed snap reg1
    let reg3 := setControl active mouseDown reg2
    physicsPhase sw sh dt snap reg3

/-- Iterated falling steps of one body against a fixed snapshot window. -/
def fallIter (sw sh : ℤ) (dt : ℚ) (win : WinInfo) (s : WindowState) :
    Nat → WindowState
  | 0 => s
  | n + 1 => (fallingStep sw sh dt win (fallIter sw sh dt win s n)).1

/-- A falling step makes no boundary contact: the candidate position is
strictly inside the screen, so neither bounce fires and the clamp is the
identity. -/
def noContact (sw sh : ℤ) (dt : ℚ) (win : WinInfo) (s : WindowState) : Prop :=
  let vy1 := s.vy + GRAVITY * dt
  let vx1 := s.vx * FRICTION
  let new_x := s.last_x + vx1 * dt
  let new_y := s.last_y + vy1 * dt
  0 < new_x ∧ new_x + (win.width : ℚ) < (sw : ℚ) ∧
  0 < new_y ∧ new_y + (win.height : ℚ) < (sh : ℚ)

instance (sw sh : ℤ) (dt : ℚ) (win : WinInfo) (s : WindowState) :
    Decidable (noContact sw sh dt win s) := by
  unfold noContact; exact inferInstance

/-- A window wider than the screen, used to probe the clamp. -/
def oversizedWin : WinInfo :=
  { hwnd := 1, title := "w", visible := true, isMinimized := false,
    left := 0, top := 0, width := 200, height := 50 }

/-- An ordinary window strictly inside a large screen, used for the
free-fall run. -/
def freeFallWin : WinInfo :=
  { hwnd := 2, title := "w", visible := true, isMinimized := false,
    left := 50, top := 0, width := 100, height := 100 }

/-- An ordinary window used for in-bounds clamping. -/
def midWin : WinInfo :=
  { hwnd := 4, title := "w", visible := true, isMinimized := false,
    left := 760, top := 0, width := 400, height := 300 }

/-- A window resting at the origin with a body far below the floor, used to
trigger both bounces at once. -/
def bounceWin : WinInfo :=
  { hwnd := 6, title := "w", visible := true, isMinimized := false,
    left := 0, top := 0, width := 50, height := 50 }

/-- A window with positive size but an empty title. -/
def emptyTitleWin : WinInfo :=
  { hwnd := 7, title := "", visible := true, isMinimized := false,
    left := 10, top := 10, width := 100, height := 100 }

/-- A plain physics state, not user-controlled. -/
def plainState : WindowState :=
  { vx := 0, vy := 0, last_x := 40, last_y := 30, is_user_controlled := false }

/-- The same physics state marked user-controlled. -/
def draggedState : WindowState :=
  { plainState with is_user_controlled := true }

/-- A state placed below the floor of a 100-pixel-high screen. -/
def sunkState : WindowState :=
  { vx := 0, vy := 0, last_x := 0, last_y := 200, is_user_controlled := false }

/-! ### Registry lookup lemmas -/

theorem lookup_nil (h : Nat) : lookup [] h = none := rfl

theorem lookup_cons (k : Nat) (v : WindowState) (l : List (Nat × WindowState))
    (h : Nat) : lookup ((k, v) :: l) h = if k = h then some v else lookup l h := by
  simp only [lookup, List.find?]
  by_cases hk : k = h
  · simp [hk]
  · have hf : (k == h) = false := beq_eq_false_iff_ne.mpr hk
    simp [hf, hk]

theorem lookup_eq_none_iff (l : List (Nat × WindowState)) (h : Nat) :
    lookup l h = none ↔ ∀ p ∈ l, p.1 ≠ h := by
  simp [lookup, List.find?_eq_none]

theorem lookup_append (l1 l2 : List (Nat × WindowState)) (h : Nat) :
    lookup (l1 ++ l2) h =
      if (lookup l1 h).isSome then lookup l1 h else lookup l2 h := by
  induction l1 with
  | nil => simp [lookup_nil]
  | cons a l ih =>
    obtain ⟨k, v⟩ := a
    rw [List.cons_append, lookup_cons, lookup_cons]
    by_cases hk : k = h
    · simp [hk]
    · simp only [hk, if_false, ih]

theorem lookup_map_none (f : Nat × WindowState → Nat × WindowState)
    (hf : ∀ p, (f p).1 = p.1) (reg : List (Nat × WindowState)) (h : Nat)
    (hl : lookup reg h = none) : lookup (reg.map f) h = none := by
  rw [lookup_eq_none_iff] at *
  intro p hp
  obtain ⟨q, hq, rfl⟩ := List.mem_map.mp hp
  rw [hf]
  exact hl q hq

theorem lookup_removeClosed_none (snap : List WinInfo)
    (reg : List (Nat × WindowState)) (h : Nat)
    (habs : ∀ w ∈ snap, w.hwnd ≠ h) :
    lookup (removeClosed snap reg) h = none := by
  rw [lookup_eq_none_iff]
  intro p hp hph
  obtain ⟨hmem, hcond⟩ := List.mem_filter.mp hp
  rw [List.any_eq_true] at hcond
  obtain ⟨w, hw, hwh⟩ := hcond
  exact habs w hw (by rw [beq_iff_eq] at hwh; rw [hwh, hph])

theorem lookup_addNewOne_ne (reg : List (Nat × WindowState)) (x : WinInfo)
    (h : Nat) (hx : x.hwnd ≠ h) : lookup (addNewOne reg x) h = lookup reg h := by
  unfold addNewOne
  split
  · rfl
  · split
    · rw [lookup_append]
      split
      · rfl
      · rename_i hns
        have hnone : lookup reg h = none := by
          cases hl : lookup reg h
          · rfl
          · rw [hl] at hns; simp at hns
        rw [hnone, lookup_cons, if_neg hx, lookup_nil]
    · rfl

theorem addNew_lookup_of_not_mem (snap : List WinInfo)
    (reg : List (Nat × WindowState)) (h : Nat)
    (hab : ∀ w ∈ snap, w.hwnd ≠ h) :
    lookup (addNew snap reg) h = lookup reg h := by
  induction snap generalizing reg with
  | nil => rfl
  | cons x xs ih =>
    have hstep : addNew (x :: xs) reg = addNew xs (addNewOne reg x) := rfl
    rw [hstep, ih (addNewOne reg x) (fun w hw => hab w (List.mem_cons_of_mem x hw)),
      lookup_addNewOne_ne reg x h (hab x (List.mem_cons_self x xs))]

theorem lookup_tick_absent (sw sh : ℤ) (dt : ℚ) (raw : List WinInfo)
    (active : Option Nat) (md : Bool) (reg : List (Nat × WindowState)) (h : Nat)
    (habs : ∀ w ∈ snapshotFilter raw, w.hwnd ≠ h) :
    lookup (update_windows_tick sw sh dt (some raw) active md reg).1 h = none := by
  have h2 : lookup (removeClosed (snapshotFilter raw)
      (addNew (snapshotFilter raw) reg)) h = none :=
    lookup_removeClosed_none _ _ _ habs
  show lookup ((setControl active md (removeClosed (snapshotFilter raw)
      (addNew (snapshotFilter raw) reg))).map
        (fun p => (p.1, (bodyStep sw sh dt (snapshotFilter raw) p.1 p.2).1))) h = none
  refine lookup_map_none
    (fun p => (p.1, (bodyStep sw sh dt (snapshotFilter raw) p.1 p.2).1))
    (fun p => rfl) _ _ ?_
  show lookup ((removeClosed (snapshotFilter raw)
      (addNew (snapshotFilter raw) reg)).map
        (fun p => (p.1,
          { p.2 with is_user_controlled := (active == some p.1) && md }))) h = none
  exact lookup_map_none
    (fun p => (p.1, { p.2 with is_user_controlled := (active == some p.1) && md }))
    (fun p => rfl) _ _ h2

/-! ### Claim theorems -/

/-- C7: if the snapshot query fails, the whole tick is a no-op: the registry
is returned exactly as it was, every body's position, velocity and mode
included, and no move command is issued. -/
theorem C7_snapshot_failure_noop (sw sh : ℤ) (dt : ℚ) (active : Option Nat)
    (md : Bool) (reg : List (Nat × WindowState)) :
    update_windows_tick sw sh dt none active md reg = (reg, []) := rfl

/-- C2: after the control-mode assignment pass, a body is user-controlled
(Dragged) iff its id equals the active window id and the pointer is
pressed; in every other case it is not user-controlled (Falling). -/
theorem C2_control_mode_iff (active : Option Nat) (md : Bool)
    (reg : List (Nat × WindowState)) (h : Nat) (s : WindowState)
    (hmem : (h, s) ∈ setControl active md reg) :
    s.is_user_controlled = true ↔ (active = some h ∧ md = true) := by
  unfold setControl at hmem
  obtain ⟨p, hp, heq⟩ := List.mem_map.mp hmem
  obtain ⟨h1, h2⟩ := Prod.mk.injEq _ _ _ _ ▸ heq
  subst h1
  rw [← h2]
  simp [Bool.and_eq_true, beq_iff_eq]

/-- Witness for C2 at a concrete registry: the single body whose id matches
the active id while the pointer is pressed is marked user-controlled. -/
theorem C2_control_mode_iff_witness :
    draggedState.is_user_controlled = true ↔
      ((some 5 : Option Nat) = some 5 ∧ true = true) :=
  C2_control_mode_iff (some 5) true [(5, plainState)] 5 draggedState
    (by simp [setControl, plainState, draggedState])

/-- C3: a tracked id absent from the filtered snapshot passed to the
reconciliation is removed within that single tick; afterwards the registry
holds no state for it at all. -/
theorem C3_absent_id_evicted (sw sh : ℤ) (dt : ℚ) (raw : List WinInfo)
    (active : Option Nat) (md : Bool) (reg : List (Nat × WindowState))
    (h : Nat) (htracked : (lookup reg h).isSome = true)
    (habs : ∀ w ∈ snapshotFilter raw, w.hwnd ≠ h) :
    lookup (update_windows_tick sw sh dt (some raw) active md reg).1 h = none :=
  lookup_tick_absent sw sh dt raw active md reg h habs

/-- Witness for C3: a registry tracking id 3 against an empty snapshot
loses it in one tick. -/
theorem C3_absent_id_evicted_witness :
    lookup (update_windows_tick 1920 1080 delta_time (some []) none false
      [(3, plainState)]).1 3 = none :=
  C3_absent_id_evicted 1920 1080 delta_time [] none false [(3, plainState)] 3
    (by simp [lookup, List.find?]) (by simp [snapshotFilter])

/-- C10: the snapshot keeps only visible, non-minimized windows with a
non-empty title, so an id all of whose reported windows fail that filter is
never present in the registry after a tick, whatever its size. -/
theorem C10_empty_title_never_tracked (sw sh : ℤ) (dt : ℚ)
    (raw : List WinInfo) (active : Option Nat) (md : Bool)
    (reg : List (Nat × WindowState)) (h : Nat)
    (hbad : ∀ w ∈ raw, w.hwnd = h →
      w.title = "" ∨ w.visible = false ∨ w.isMinimized = true) :
    lookup (update_windows_tick sw sh dt (some raw) active md reg).1 h = none := by
  apply lookup_tick_absent
  intro w hw he
  obtain ⟨hmem, hcond⟩ := List.mem_filter.mp hw
  rcases hbad w hmem he with ht | hv | hm
  · simp [ht] at hcond
  · simp [hv] at hcond
  · simp [hm] at hcond

/-- Witness for C10: a visible, positively sized window with an empty title
is not tracked after a tick on an empty registry. -/
theorem C10_empty_title_never_tracked_witness :
    lookup (update_windows_tick 1920 1080 delta_time (some [emptyTitleWin])
      none false []).1 7 = none :=
  C10_empty_title_never_tracked 1920 1080 delta_time [emptyTitleWin] none false
    [] 7 (by intro w hw he; simp at hw; simp [hw, emptyTitleWin])

/-- C1 counterexample: when the snapshot reports a window wider than the
screen, the clamped position violates `x ≤ screenWidth - width` — the claim
quantifies over every window size reported by the snapshot, so it fails. -/
theorem C1_counterexample :
    ¬ ((fallingStep 100 100 delta_time oversizedWin
        (WindowState.init oversizedWin)).1.last_x ≤
      (100 : ℚ) - (oversizedWin.width : ℚ)) := by
  norm_num [fallingStep, WindowState.init, oversizedWin, GRAVITY, FRICTION,
    delta_time, UPDATE_RATE_HZ]

/-- C1 amended: the clamped position after a falling step always satisfies
`0 ≤ x` and `0 ≤ y`; the upper bounds `x ≤ screenWidth - width` and
`y ≤ screenHeight - height` hold whenever the snapshot-reported dimension
fits on the screen. -/
theorem C1_clamped_in_bounds (sw sh : ℤ) (dt : ℚ) (win : WinInfo)
    (s : WindowState) :
    0 ≤ (fallingStep sw sh dt win s).1.last_x ∧
    0 ≤ (fallingStep sw sh dt win s).1.last_y ∧
    ((win.width : ℚ) ≤ (sw : ℚ) →
      (fallingStep sw sh dt win s).1.last_x ≤ (sw : ℚ) - (win.width : ℚ)) ∧
    ((win.height : ℚ) ≤ (sh : ℚ) →
      (fallingStep sw sh dt win s).1.last_y ≤ (sh : ℚ) - (win.height : ℚ)) := by
  simp only [fallingStep]
  refine ⟨le_max_left _ _, le_max_left _ _,
    fun hw => max_le (by linarith) (min_le_right _ _),
    fun hh => max_le (by linarith) (min_le_right _ _)⟩

/-- Witness for C1 (amended): a 400×300 window on a 1920×1080 screen stays
inside the screen after a falling step, the fit hypotheses holding there. -/
theorem C1_clamped_in_bounds_witness :
    0 ≤ (fallingStep 1920 1080 delta_time midWin (WindowState.init midWin)).1.last_x ∧
    0 ≤ (fallingStep 1920 1080 delta_time midWin (WindowState.init midWin)).1.last_y ∧
    (midWin.width : ℚ) ≤ (1920 : ℚ) ∧
    (fallingStep 1920 1080 delta_time midWin (WindowState.init midWin)).1.last_x
        ≤ (1920 : ℚ) - (midWin.width : ℚ) ∧
    (midWin.height : ℚ) ≤ (1080 : ℚ) ∧
    (fallingStep 1920 1080 delta_time midWin (WindowState.init midWin)).1.last_y
        ≤ (1080 : ℚ) - (midWin.height : ℚ) :=
  ⟨(C1_clamped_in_bounds 1920 1080 delta_time midWin (WindowState.init midWin)).1,
   (C1_clamped_in_bounds 1920 1080 delta_time midWin (WindowState.init midWin)).2.1,
   by norm_num [midWin],
   (C1_clamped_in_bounds 1920 1080 delta_time midWin
      (WindowState.init midWin)).2.2.1 (by norm_num [midWin]),
   by norm_num [midWin],
   (C1_clamped_in_bounds 1920 1080 delta_time midWin
      (WindowState.init midWin)).2.2.2 (by norm_num [midWin])⟩

/-- C5: boundary collision is evaluated against the candidate position
computed before clamping; when the candidate crosses a vertical edge the
(post-friction) horizontal velocity is multiplied by -0.5, and when it
crosses a horizontal edge the (post-gravity) vertical velocity is
multiplied by -0.4, in that same tick. -/
theorem C5_bounce_on_candidate (sw sh : ℤ) (dt : ℚ) (win : WinInfo)
    (s : WindowState) :
    ((s.last_x + s.vx * FRICTION * dt ≤ 0 ∨
        s.last_x + s.vx * FRICTION * dt + (win.width : ℚ) ≥ (sw : ℚ)) →
      (fallingStep sw sh dt win s).1.vx = s.vx * FRICTION * (-(1/2))) ∧
    ((s.last_y + (s.vy + GRAVITY * dt) * dt ≤ 0 ∨
        s.last_y + (s.vy + GRAVITY * dt) * dt + (win.height : ℚ) ≥ (sh : ℚ)) →
      (fallingStep sw sh dt win s).1.vy = (s.vy + GRAVITY * dt) * (-(2/5))) := by
  simp only [fallingStep]
  constructor
  · intro hcond
    rw [if_pos hcond]
  · intro hcond
    rw [if_pos hcond]

/-- Witness for C5: a window whose candidate position touches the left edge
and overshoots the floor has both velocities reflected that tick. -/
theorem C5_bounce_on_candidate_witness :
    (fallingStep 100 100 delta_time bounceWin sunkState).1.vx
        = sunkState.vx * FRICTION * (-(1/2)) ∧
    (fallingStep 100 100 delta_time bounceWin sunkState).1.vy
        = (sunkState.vy + GRAVITY * delta_time) * (-(2/5)) :=
  ⟨(C5_bounce_on_candidate 100 100 delta_time bounceWin sunkState).1
      (Or.inl (by norm_num [sunkState, FRICTION, delta_time, UPDATE_RATE_HZ])),
   (C5_bounce_on_candidate 100 100 delta_time bounceWin sunkState).2
      (Or.inr (by norm_num [sunkState, bounceWin, GRAVITY, delta_time,
        UPDATE_RATE_HZ]))⟩

/-- C6: on a tick in which a body is user-controlled, its velocity is set to
(current - previous) / dt × throwMultiplier regardless of gravity and
friction, its stored previous position becomes the current position, and no
move command is issued. -/
theorem C6_dragged_step (sw sh : ℤ) (dt : ℚ) (snap : List WinInfo) (h : Nat)
    (s : WindowState) (win : WinInfo)
    (hfind : snap.find? (fun w => w.hwnd == h) = some win)
    (hctrl : s.is_user_controlled = true) :
    bodyStep sw sh dt snap h s =
      ({ s with
          vx := ((win.left : ℚ) - s.last_x) / dt * THROW_MULTIPLIER,
          vy := ((win.top : ℚ) - s.last_y) / dt * THROW_MULTIPLIER,
          last_x := (win.left : ℚ),
          last_y := (win.top : ℚ) }, none) := by
  unfold bodyStep
  rw [hfind]
  simp [hctrl, draggedStep]

/-- Witness for C6 at a concrete dragged body. -/
theorem C6_dragged_step_witness :
    bodyStep 1920 1080 delta_time [midWin] midWin.hwnd draggedState =
      ({ draggedState with
          vx := ((midWin.left : ℚ) - draggedState.last_x) / delta_time
            * THROW_MULTIPLIER,
          vy := ((midWin.top : ℚ) - draggedState.last_y) / delta_time
            * THROW_MULTIPLIER,
          last_x := (midWin.left : ℚ),
          last_y := (midWin.top : ℚ) }, none) :=
  C6_dragged_step 1920 1080 delta_time [midWin] midWin.hwnd draggedState midWin
    rfl rfl

/-- C9: in a falling step a move command is issued iff the integer-truncated
clamped position differs from the window's reported integer position; when
both coordinates agree no command is issued that tick. -/
theorem C9_move_iff_int_changed (sw sh : ℤ) (dt : ℚ) (win : WinInfo)
    (s : WindowState) :
    ((fallingStep sw sh dt win s).2).isSome = true ↔
      (win.left ≠ pytrunc (fallingStep sw sh dt win s).1.last_x ∨
       win.top ≠ pytrunc (fallingStep sw sh dt win s).1.last_y) := by
  simp only [fallingStep]
  split
  · rename_i hcond
    simpa using hcond
  · rename_i hcond
    simp [hcond]

/-- A falling step with no boundary contact: neither bounce fires and the
clamp is the identity, so gravity and the candidate position act directly
on the vertical state. -/
theorem fallingStep_noContact (sw sh : ℤ) (dt : ℚ) (win : WinInfo)
    (s : WindowState) (h : noContact sw sh dt win s) :
    (fallingStep sw sh dt win s).1.vy = s.vy + GRAVITY * dt ∧
    (fallingStep sw sh dt win s).1.last_y
        = s.last_y + (s.vy + GRAVITY * dt) * dt := by
  unfold noContact at h
  obtain ⟨hx1, hx2, hy1, hy2⟩ := h
  simp only [fallingStep]
  constructor
  · rw [if_neg (not_or.mpr ⟨not_le.mpr (by linarith), not_le.mpr (by linarith)⟩)]
  · rw [min_eq_left (by linarith), max_eq_right (by linarith)]

/-- C4: with zero initial velocity and no boundary contact throughout the
run, after n falling ticks of duration dt the vertical velocity is exactly
n·gravity·dt and the vertical position is the exact partial sum of the
semi-implicit Euler integration, `y0 + gravity·dt²·n(n+1)/2`; for n ≥ 1 it
differs from the continuous analytic value `y0 + gravity·dt²·n²/2`. -/
theorem C4_free_fall (sw sh : ℤ) (win : WinInfo) (s : WindowState) (dt : ℚ)
    (n : ℕ) (hdt : 0 < dt) (hvx : s.vx = 0) (hvy : s.vy = 0)
    (hnc : ∀ k < n, noContact sw sh dt win (fallIter sw sh dt win s k)) :
    (fallIter sw sh dt win s n).vy = (n : ℚ) * GRAVITY * dt ∧
    (fallIter sw sh dt win s n).last_y
        = s.last_y + GRAVITY * dt * dt * ((n : ℚ) * ((n : ℚ) + 1) / 2) ∧
    (1 ≤ n → (fallIter sw sh dt win s n).last_y
        ≠ s.last_y + GRAVITY * dt * dt * ((n : ℚ) * (n : ℚ) / 2)) := by
  induction n with
  | zero =>
    refine ⟨by simp [fallIter, hvy], by simp [fallIter], by simp⟩
  | succ m ih =>
    have hm := ih (fun k hk => hnc k (Nat.lt_succ_of_lt hk))
    have hc := hnc m (Nat.lt_succ_self m)
    have hstep := fallingStep_noContact sw sh dt win (fallIter sw sh dt win s m) hc
    have hvy2 : (fallIter sw sh dt win s (m + 1)).vy
        = ((m : ℚ) + 1) * GRAVITY * dt := by
      show (fallingStep sw sh dt win (fallIter sw sh dt win s m)).1.vy = _
      rw [hstep.1, hm.1]; ring
    have hy2 : (fallIter sw sh dt win s (m + 1)).last_y
        = s.last_y + GRAVITY * dt * dt
          * (((m : ℚ) + 1) * (((m : ℚ) + 1) + 1) / 2) := by
      show (fallingStep sw sh dt win (fallIter sw sh dt win s m)).1.last_y = _
      rw [hstep.2, hm.2.1, hm.1]; ring
    refine ⟨by rw [hvy2]; push_cast; ring, by rw [hy2]; push_cast; ring, ?_⟩
    intro _
    rw [hy2]
    intro heq
    have hG : GRAVITY = 2000 := rfl
    have hdt2 : (0 : ℚ) < dt * dt := mul_pos hdt hdt
    have hm1 : (0 : ℚ) < (m : ℚ) + 1 := by positivity
    rw [hG] at heq
    push_cast at heq
    nlinarith [mul_pos hdt2 hm1]

/-- Witness for C4: two ticks of free fall of a 100×100 window well inside a
10000×10000 screen, at the configured gravity and tick rate. -/
theorem C4_free_fall_witness :
    (fallIter 10000 10000 (1/60) freeFallWin
        (WindowState.init freeFallWin) 2).vy = ((2 : ℕ) : ℚ) * GRAVITY * (1/60) ∧
    (fallIter 10000 10000 (1/60) freeFallWin
        (WindowState.init freeFallWin) 2).last_y
      = (WindowState.init freeFallWin).last_y
        + GRAVITY * (1/60) * (1/60) * (((2 : ℕ) : ℚ) * (((2 : ℕ) : ℚ) + 1) / 2) ∧
    (1 ≤ 2 → (fallIter 10000 10000 (1/60) freeFallWin
        (WindowState.init freeFallWin) 2).last_y
      ≠ (WindowState.init freeFallWin).last_y
        + GRAVITY * (1/60) * (1/60) * (((2 : ℕ) : ℚ) * ((2 : ℕ) : ℚ) / 2)) :=
  C4_free_fall 10000 10000 freeFallWin (WindowState.init freeFallWin) (1/60) 2
    (by norm_num) rfl rfl
    (by
      intro k hk
      interval_cases k <;>
        norm_num [noContact, fallIter, fallingStep, WindowState.init,
          freeFallWin, GRAVITY, FRICTION])

/-- C8: for a snapshot window whose id is not yet tracked, the add pass
skips it exactly when a reported dimension is non-positive, and otherwise
creates a body seeded with the window's current position, zero velocity,
and Falling mode (`WindowState.init`). -/
theorem C8_creation_seeding (snap : List WinInfo) (reg : List (Nat × WindowState))
    (w : WinInfo) (hnodup : (snap.map WinInfo.hwnd).Nodup) (hmem : w ∈ snap)
    (hnew : lookup reg w.hwnd = none) :
    lookup (addNew snap reg) w.hwnd =
      if 0 < w.width ∧ 0 < w.height then some (WindowState.init w) else none := by
  induction snap generalizing reg with
  | nil => cases hmem
  | cons x xs ih =>
    rw [List.map_cons, List.nodup_cons] at hnodup
    have hstep : addNew (x :: xs) reg = addNew xs (addNewOne reg x) := rfl
    rw [hstep]
    rcases List.mem_cons.mp hmem with heq | hmem2
    · have hxs : ∀ u ∈ xs, u.hwnd ≠ w.hwnd := by
        intro u hu he
        rw [heq] at he
        exact hnodup.1 (he ▸ List.mem_map_of_mem WinInfo.hwnd hu)
      rw [addNew_lookup_of_not_mem xs (addNewOne reg x) w.hwnd hxs, ← heq]
      unfold addNewOne
      rw [if_neg ?hno]
      case hno =>
        rw [lookup_eq_none_iff] at hnew
        rintro ⟨p, hp, hph⟩
        exact hnew p hp hph
      by_cases hd : 0 < w.width ∧ 0 < w.height
      · rw [if_pos hd, if_pos hd, lookup_append, hnew]
        simp [lookup_cons]
      · rw [if_neg hd, if_neg hd]
        exact hnew
    · have hxw : x.hwnd ≠ w.hwnd := by
        intro he
        exact hnodup.1 (he ▸ List.mem_map_of_mem WinInfo.hwnd hmem2)
      have hnew2 : lookup (addNewOne reg x) w.hwnd = none := by
        rw [lookup_addNewOne_ne reg x w.hwnd hxw]; exact hnew
      exact ih (addNewOne reg x) hnodup.2 hmem2 hnew2

/-- Witness for C8: a fresh positively sized window becomes tracked with the
seeded initial state. -/
theorem C8_creation_seeding_witness :
    lookup (addNew [freeFallWin] []) freeFallWin.hwnd =
      if 0 < freeFallWin.width ∧ 0 < freeFallWin.height
      then some (WindowState.init freeFallWin) else none :=
  C8_creation_seeding [freeFallWin] [] freeFallWin (by simp)
    (List.mem_singleton.mpr rfl) rfl
